import Mathlib

/-!
Shallow embedding of the nomad-wasmtime-plugin driver (src/wasmtime/driver.go)
together with the parts of the task handle and task store that the spec
describes, and proofs of the claims about it.

Conventions: Go machine integers become Int (only comparisons matter here);
fallible Go calls become Except values or Bool-valued oracles supplied as
parameters; a Go panic is the outer .error of an Except Unit wrapper; side
effects on the plugin struct become explicit state passing on PluginState.
-/

namespace NomadWasmtime

/-! ## Configuration data model (driver.go, types PreCacheConfig,
ExpirationConfig, CacheConfig, Config) -/

/-- PreCacheConfig from driver.go: codec fields enabled, modulesDir. -/
structure PreCacheConfig where
  enabled : Bool
  modulesDir : String
deriving Repr, DecidableEq

/-- ExpirationConfig from driver.go: codec fields enabled, entryTTL (seconds). -/
structure ExpirationConfig where
  enabled : Bool
  entryTTL : Int
deriving Repr, DecidableEq

/-- CacheConfig from driver.go: enabled, size, type, preCache, expiration. -/
structure CacheConfig where
  enabled : Bool
  size : Int
  type : String
  preCache : PreCacheConfig
  expiration : ExpirationConfig
deriving Repr, DecidableEq

/-- Config from driver.go: the decoded plugin configuration. -/
structure Config where
  cache : CacheConfig
deriving Repr, DecidableEq

/-- gcache.TYPE_LFU -/
def TYPE_LFU : String := "lfu"

/-- gcache.TYPE_ARC -/
def TYPE_ARC : String := "arc"

/-- gcache.TYPE_LRU -/
def TYPE_LRU : String := "lru"

/-- gcache.TYPE_SIMPLE -/
def TYPE_SIMPLE : String := "simple"

/-- The default plugin configuration from the configSpec HCL literal in
driver.go: cache enabled, lfu, size 5, expiration enabled with TTL 600,
preCache disabled. -/
def defaultConfig : Config :=
  { cache :=
    { enabled := true
      size := 5
      type := TYPE_LFU
      preCache := { enabled := false, modulesDir := "" }
      expiration := { enabled := true, entryTTL := 600 } } }

/-! ## Errors returned by the driver (each constructor stands for one
fmt.Errorf or errors.New site, carrying the values the format string embeds) -/

/-- The errors driver.go can return; each constructor carries exactly the
dynamic values interpolated into the corresponding Go error message. -/
inductive DriverError where
  /-- base.MsgPackDecode failure in SetConfig -/
  | msgPackDecodeFailed
  /-- cache size must be > 0, but specified v -/
  | invalidCacheSize (size : Int)
  /-- cache entry time-to-live must be > 0, but specified v -/
  | invalidEntryTTL (ttl : Int)
  /-- unexpected cache type specified, expected types: [lfu, arc, lru, simple] -/
  | unexpectedCacheType (t : String)
  /-- unable to get WASM modules for pre-cache from dir directory -/
  | walkFailed (dir : String)
  /-- cache size (size) must not be less then number of pre-cached modules (count) -/
  | cacheSizeExceeded (size : Int) (count : Nat)
  /-- unable to load WASM module (path) from file -/
  | moduleLoadFailed (path : String)
  /-- unable to serialize WASM module (path) -/
  | moduleSerializeFailed (path : String)
  /-- unable to cache WASM module (path) -/
  | moduleCacheSetFailed (path : String)
  /-- task with ID id already started -/
  | taskAlreadyStarted (id : String)
  /-- failed to decode driver config -/
  | decodeDriverConfigFailed
  /-- failed to set driver state -/
  | setDriverStateFailed
  /-- drivers.ErrTaskNotFound -/
  | errTaskNotFound
  /-- cannot destroy running task -/
  | cannotDestroyRunningTask
  /-- this driver does not support signal forwarding -/
  | signalNotSupported
  /-- this driver does not support exec -/
  | execNotSupported
deriving Repr, DecidableEq

/-- The rendered message of each error, mirroring the Go format strings. -/
def DriverError.message : DriverError → String
  | .msgPackDecodeFailed => "msgpack decode failed"
  | .invalidCacheSize size => s!"cache size must be > 0, but specified {size}"
  | .invalidEntryTTL ttl => s!"cache entry time-to-live must be > 0, but specified {ttl}"
  | .unexpectedCacheType t =>
      s!"unexpected cache type specified, expected types: [lfu, arc, lru, simple], but specififed {t}"
  | .walkFailed dir => s!"unable to get WASM modules for pre-cache from {dir} directory"
  | .cacheSizeExceeded size count =>
      s!"cache size ({size}) must not be less then number of pre-cached modules ({count})"
  | .moduleLoadFailed path => s!"unable to load WASM module ({path}) from file"
  | .moduleSerializeFailed path => s!"unable to serialize WASM module ({path})"
  | .moduleCacheSetFailed path => s!"unable to cache WASM module ({path})"
  | .taskAlreadyStarted id => s!"task with ID {id} already started"
  | .decodeDriverConfigFailed => "failed to decode driver config"
  | .setDriverStateFailed => "failed to set driver state"
  | .errTaskNotFound => "task not found for given id"
  | .cannotDestroyRunningTask => "cannot destroy running task"
  | .signalNotSupported => "this driver does not support signal forwarding"
  | .execNotSupported => "this driver does not support exec"

/-- The module path named by a pre-cache per-module error, if any. -/
def DriverError.modulePath : DriverError → Option String
  | .moduleLoadFailed path => some path
  | .moduleSerializeFailed path => some path
  | .moduleCacheSetFailed path => some path
  | _ => none

/-! ## The pre-cache directory walk (driver.go, configureCache lines 382-400)

filepath.Walk delivers to the visitor, for each visited entry, a path, a
FileInfo that is nil exactly when a per-entry I/O error occurred, and that
error. The visitor closure in configureCache reads info.Name and info.IsDir
without a nil check and always returns nil. -/

/-- The fields of fs.FileInfo the visitor reads. -/
structure FileInfo where
  name : String
  isDir : Bool
deriving Repr, DecidableEq

/-- One invocation of the walk visitor: the path argument, the FileInfo
argument (none models a nil FileInfo, delivered on a per-entry I/O error),
and the error argument (some models a non-nil error). -/
structure WalkEntry where
  path : String
  info : Option FileInfo
  err : Option String
deriving Repr, DecidableEq

/-- strings.HasSuffix from the Go standard library: byte-level suffix
test, embedded as a character-list suffix test. -/
def hasSuffix (s suffix : String) : Bool :=
  suffix.data.isSuffixOf s.data

/-- Outcome of one visitor invocation: nilPanic models the Go runtime panic
from dereferencing a nil FileInfo; returns carries the Go error value the
visitor returns together with the path it appends to modulesPath, if any. -/
inductive VisitorOutcome where
  | nilPanic
  | returns (goError : Option String) (appendPath : Option String)
deriving Repr, DecidableEq

/-- The visitor function configureCache passes to filepath.Walk: appends the
path when the entry is a non-directory whose name ends in .wasm, and returns
nil; it never inspects its error argument, and it dereferences the FileInfo
unconditionally, so a nil FileInfo is a panic. -/
def walkVisitor (e : WalkEntry) : VisitorOutcome :=
  match e.info with
  | none => .nilPanic
  | some info =>
      if !info.isDir && hasSuffix info.name ".wasm" then
        .returns none (some e.path)
      else
        .returns none none

/-- filepath.Walk over a sequence of visited entries: the first visitor panic
aborts the process (outer .error); a non-nil error returned by the visitor
stops the walk and becomes its result; otherwise the walk returns nil and
the accumulated modulesPath list. -/
def runWalk : List WalkEntry → Except Unit (Option String × List String)
  | [] => .ok (none, [])
  | e :: es =>
    match walkVisitor e with
    | .nilPanic => .error ()
    | .returns (some goErr) _ => .ok (some goErr, [])
    | .returns none appendPath =>
        (runWalk es).map fun r =>
          (r.1, match appendPath with
                | some p => p :: r.2
                | none => r.2)

/-! ## Pre-cache warm-up loop (driver.go, configureCache lines 402-422) -/

/-- Oracles for the fallible external calls made per discovered module:
wasmtime.NewModuleFromFile, Module.Serialize, and gcache Cache.Set. -/
structure EngineOracle where
  loadOk : String → Bool
  serializeOk : String → Bool
  cacheSetOk : String → Bool

/-- The error produced by processing one module path in the warm-up loop,
none when all three steps succeed. -/
def moduleStepErr (o : EngineOracle) (p : String) : Option DriverError :=
  if !o.loadOk p then some (.moduleLoadFailed p)
  else if !o.serializeOk p then some (.moduleSerializeFailed p)
  else if !o.cacheSetOk p then some (.moduleCacheSetFailed p)
  else none

/-- The warm-up loop over the discovered module paths: processes them in
order, returning on the first failing module; the second component is the
list of module paths for which processing was attempted. -/
def precacheLoop (o : EngineOracle) : List String → Except DriverError Unit × List String
  | [] => (.ok (), [])
  | p :: ps =>
    match moduleStepErr o p with
    | some e => (.error e, [p])
    | none =>
        let rest := precacheLoop o ps
        (rest.1, p :: rest.2)

/-! ## configureCache (driver.go lines 357-431) -/

/-- The gcache cache built by configureCache: its type string, capacity, and
TTL when expiration is enabled. none as a whole means no cache was built. -/
structure BuiltCache where
  type : String
  size : Int
  expirationTTL : Option Int
deriving Repr, DecidableEq

/-- Whether the type string matches one of the four gcache builder cases. -/
def validCacheType (t : String) : Bool :=
  t == TYPE_LFU || t == TYPE_ARC || t == TYPE_LRU || t == TYPE_SIMPLE

/-- Result of configureCache: the returned error (if any), the cache assigned
to d.modulesCache (none when the type switch failed before Build), and the
list of module paths the warm-up loop attempted to process. -/
structure ConfigureOutcome where
  result : Except DriverError Unit
  built : Option BuiltCache
  processed : List String
deriving Repr

/-- The cache that cacheBuilder.Build() produces for a cache configuration:
capacity from size, expiration armed only when enabled. -/
def builtFor (cacheConf : CacheConfig) : BuiltCache :=
  { type := cacheConf.type
    size := cacheConf.size
    expirationTTL :=
      if cacheConf.expiration.enabled then some cacheConf.expiration.entryTTL
      else none }

/-- configureCache from driver.go: builds the cache according to the cache
configuration (failing on an unknown type), then, when pre-cache is enabled,
walks the modules directory, rejects a module count above the cache size,
and warms the cache module by module. The outer .error is a Go panic
propagating out of the walk visitor. fsEntries is the sequence of entries
filepath.Walk visits under cacheConf.preCache.modulesDir. -/
def configureCache (cacheConf : CacheConfig) (fsEntries : List WalkEntry)
    (o : EngineOracle) : Except Unit ConfigureOutcome :=
  if !validCacheType cacheConf.type then
    .ok { result := .error (.unexpectedCacheType cacheConf.type)
          built := none
          processed := [] }
  else
    let built : BuiltCache := builtFor cacheConf
    if cacheConf.preCache.enabled then
      match runWalk fsEntries with
      | .error () => .error ()
      | .ok (some _, _) =>
          .ok { result := .error (.walkFailed cacheConf.preCache.modulesDir)
                built := some built
                processed := [] }
      | .ok (none, modulesPath) =>
          if (modulesPath.length : Int) > cacheConf.size then
            .ok { result := .error (.cacheSizeExceeded cacheConf.size modulesPath.length)
                  built := some built
                  processed := [] }
          else
            let loop := precacheLoop o modulesPath
            .ok { result := loop.1, built := some built, processed := loop.2 }
    else
      .ok { result := .ok (), built := some built, processed := [] }

/-! ## Task configuration for one task (driver.go, types TaskConfig,
IOBufferConfig, Main) -/

/-- IOBufferConfig from driver.go. -/
structure IOBufferConfig where
  enabled : Bool
  size : Int
  inputValue : String
  ioBufFuncName : String
  args : List Int
deriving Repr, DecidableEq

/-- Main from driver.go. -/
structure Main where
  mainFuncName : String
  args : List Int
deriving Repr, DecidableEq

/-- TaskConfig from driver.go: the decoded per-task driver configuration. -/
structure TaskConfig where
  modulePath : String
  ioBuffer : IOBufferConfig
  main : Main
deriving Repr, DecidableEq

/-- The arguments StartTask receives via *drivers.TaskConfig, plus the
outcomes of its two fallible marshalling calls: decoded is the result of
cfg.DecodeDriverConfig (none models a decode error) and setDriverStateOk
is whether handle.SetDriverState succeeds. -/
structure DriversTaskConfig where
  id : String
  decoded : Option TaskConfig
  setDriverStateOk : Bool
deriving Repr, DecidableEq

/-! ## Task handle and task store

The taskHandle and taskStore types live in repository files that are not
under src/ (only driver.go is); the definitions below model them from the
spec, restricted to the fields and methods driver.go uses. -/

/-- The drivers.TaskState value stored in the procState field of a task
handle: Running or Exited (Unknown is never assigned by this driver). -/
inductive ProcState where
  | running
  | exited
deriving Repr, DecidableEq

/-- Modelled from the spec: the taskHandle (file not under src/). driver.go
constructs it with the task id, procState, start time, module path, buffer
and main-function configuration; stopRequested models the interruption flag
that the stop method (spec section 4.4) arms. -/
structure TaskHandle where
  id : String
  procState : ProcState
  startedAt : Nat
  modulePath : String
  ioBufferConf : IOBufferConfig
  mainFunc : Main
  stopRequested : Bool
deriving Repr, DecidableEq

/-- Modelled from the spec: taskHandle.IsRunning — the status snapshot shows
Running exactly when procState is Running. -/
def TaskHandle.isRunning (h : TaskHandle) : Bool :=
  h.procState == .running

/-- Modelled from the spec: taskHandle.stop arms the cooperative
interruption of the in-flight call; it does not itself change procState. -/
def TaskHandle.stopHandle (h : TaskHandle) : TaskHandle :=
  { h with stopRequested := true }

/-- Modelled from the spec: the status snapshot returned by
taskHandle.TaskStatus — state plus start timestamp. -/
structure TaskStatus where
  state : ProcState
  startedAt : Nat
deriving Repr, DecidableEq

/-- Modelled from the spec: taskHandle.TaskStatus. -/
def TaskHandle.taskStatus (h : TaskHandle) : TaskStatus :=
  { state := h.procState, startedAt := h.startedAt }

/-- Modelled from the spec: the taskStore (file not under src/), a
mutex-protected map from task id to handle, embedded as an association
list with at most one binding per id. -/
abbrev TaskMap := List (String × TaskHandle)

/-- Modelled from the spec: taskStore.Get — map lookup. -/
def tasksGet (tasks : TaskMap) (id : String) : Option TaskHandle :=
  (tasks.find? fun p => p.1 == id).map Prod.snd

/-- Modelled from the spec: taskStore.Set — map insert-or-replace. -/
def tasksSet (tasks : TaskMap) (id : String) (h : TaskHandle) : TaskMap :=
  (id, h) :: tasks.filter fun p => !(p.1 == id)

/-- Modelled from the spec: taskStore.Delete — map removal. -/
def tasksDelete (tasks : TaskMap) (id : String) : TaskMap :=
  tasks.filter fun p => !(p.1 == id)

/-- The number of bindings a task map holds for an id. -/
def countId (tasks : TaskMap) (id : String) : Nat :=
  (tasks.filter fun p => p.1 == id).length

/-! ## Plugin state and lifecycle operations (driver.go, WasmtimeDriverPlugin
methods) -/

/-- The mutable fields of WasmtimeDriverPlugin that the lifecycle operations
touch: the stored config, the built modules cache, the task store, and the
ids whose run goroutine has been spawned but has not yet executed. -/
structure PluginState where
  config : Config
  modulesCache : Option BuiltCache
  tasks : TaskMap
  pending : List String
deriving Repr

/-- Observable side effects of a lifecycle operation. -/
inductive Event where
  | stopCalled (id : String)
deriving Repr, DecidableEq

/-- Result of one driver lifecycle operation: the returned value or error,
the plugin state after the call, and the emitted events. -/
structure OpOut (α : Type) where
  res : Except DriverError α
  state : PluginState
  events : List Event
deriving Repr

/-- StartTask from driver.go: duplicate-id check against the task store,
decode of the driver config, construction of the handle — with procState
set to drivers.TaskStateRunning — SetDriverState, then registration in the
store and spawning of the run goroutine (recorded in pending until it
executes). now stands for time.Now at the call. -/
def startTask (s : PluginState) (now : Nat) (cfg : DriversTaskConfig) :
    OpOut TaskHandle :=
  match tasksGet s.tasks cfg.id with
  | some _ => { res := .error (.taskAlreadyStarted cfg.id), state := s, events := [] }
  | none =>
    match cfg.decoded with
    | none => { res := .error .decodeDriverConfigFailed, state := s, events := [] }
    | some driverConfig =>
      let h : TaskHandle :=
        { id := cfg.id
          procState := .running
          startedAt := now
          modulePath := driverConfig.modulePath
          ioBufferConf := driverConfig.ioBuffer
          mainFunc := driverConfig.main
          stopRequested := false }
      if cfg.setDriverStateOk then
        { res := .ok h
          state := { s with tasks := tasksSet s.tasks cfg.id h
                            pending := cfg.id :: s.pending }
          events := [] }
      else
        { res := .error .setDriverStateFailed, state := s, events := [] }

/-- Modelled from the spec: execution of a spawned run goroutine for a task
id — the concurrency unit begins the engine call and, once the call
protocol returns, performs the single Running to Exited transition. A task
whose goroutine is not pending is left untouched. -/
def runStep (s : PluginState) (id : String) : PluginState :=
  if s.pending.contains id then
    { s with pending := s.pending.erase id
             tasks :=
               match tasksGet s.tasks id with
               | some h => tasksSet s.tasks id { h with procState := .exited }
               | none => s.tasks }
  else s

/-- WaitTask from driver.go: lookup, ErrTaskNotFound when absent, otherwise
a wait channel is handed out (the channel itself is not modelled). -/
def waitTask (s : PluginState) (id : String) : OpOut Unit :=
  match tasksGet s.tasks id with
  | none => { res := .error .errTaskNotFound, state := s, events := [] }
  | some _ => { res := .ok (), state := s, events := [] }

/-- StopTask from driver.go: lookup, ErrTaskNotFound when absent, otherwise
handle.stop(). -/
def stopTask (s : PluginState) (id : String) : OpOut Unit :=
  match tasksGet s.tasks id with
  | none => { res := .error .errTaskNotFound, state := s, events := [] }
  | some h =>
      { res := .ok ()
        state := { s with tasks := tasksSet s.tasks id h.stopHandle }
        events := [.stopCalled id] }

/-- DestroyTask from driver.go: lookup, ErrTaskNotFound when absent; a
running task without force is rejected; a running task with force is
stopped; in every non-rejected case the id is deleted from the store. -/
def destroyTask (s : PluginState) (id : String) (force : Bool) : OpOut Unit :=
  match tasksGet s.tasks id with
  | none => { res := .error .errTaskNotFound, state := s, events := [] }
  | some h =>
    if h.isRunning && !force then
      { res := .error .cannotDestroyRunningTask, state := s, events := [] }
    else
      { res := .ok ()
        state := { s with tasks := tasksDelete s.tasks id }
        events := if h.isRunning && force then [.stopCalled id] else [] }

/-- InspectTask from driver.go: lookup, ErrTaskNotFound when absent,
otherwise the status snapshot. -/
def inspectTask (s : PluginState) (id : String) : OpOut TaskStatus :=
  match tasksGet s.tasks id with
  | none => { res := .error .errTaskNotFound, state := s, events := [] }
  | some h => { res := .ok h.taskStatus, state := s, events := [] }

/-- TaskStats from driver.go: lookup, ErrTaskNotFound when absent, otherwise
a stats channel is handed out (the channel itself is not modelled). -/
def taskStats (s : PluginState) (id : String) : OpOut Unit :=
  match tasksGet s.tasks id with
  | none => { res := .error .errTaskNotFound, state := s, events := [] }
  | some _ => { res := .ok (), state := s, events := [] }

/-- SignalTask from driver.go: lookup, ErrTaskNotFound when absent,
otherwise the driver reports that signal forwarding is unsupported. -/
def signalTask (s : PluginState) (id : String) : OpOut Unit :=
  match tasksGet s.tasks id with
  | none => { res := .error .errTaskNotFound, state := s, events := [] }
  | some _ => { res := .error .signalNotSupported, state := s, events := [] }

/-- SetConfig from driver.go: decode (decoded is the MsgPackDecode result;
on failure d.config is left untouched), assignment of the decoded config to
d.config, then validation of cache size and entry TTL, then configureCache
when the cache is enabled. configureCache assigns d.modulesCache only when
its type switch succeeds (the Build call at line 380 comes after the
default-case return at line 376), so a built of none leaves the previously
stored cache in place. The outer .error is a Go panic propagating out of
the walk visitor. -/
def setConfig (s : PluginState) (decoded : Except Unit Config)
    (fsEntries : List WalkEntry) (o : EngineOracle) :
    Except Unit (Except DriverError Unit × PluginState) :=
  match decoded with
  | .error () => .ok (.error .msgPackDecodeFailed, s)
  | .ok config =>
    let s := { s with config := config }
    let cacheConf := config.cache
    if cacheConf.size ≤ 0 then
      .ok (.error (.invalidCacheSize cacheConf.size), s)
    else if cacheConf.expiration.enabled && cacheConf.expiration.entryTTL ≤ 0 then
      .ok (.error (.invalidEntryTTL cacheConf.expiration.entryTTL), s)
    else if cacheConf.enabled then
      match configureCache cacheConf fsEntries o with
      | .error () => .error ()
      | .ok out =>
          .ok (out.result,
               { s with modulesCache :=
                   match out.built with
                   | some b => some b
                   | none => s.modulesCache })
    else
      .ok (.ok (), s)

/-- The same configuration with the cache entry TTL replaced by t. -/
def withEntryTTL (config : Config) (t : Int) : Config :=
  { config with cache :=
    { config.cache with expiration :=
      { config.cache.expiration with entryTTL := t } } }

/-- The error-or-success component of a SetConfig call, discarding the
resulting plugin state. -/
def setConfigResult (r : Except Unit (Except DriverError Unit × PluginState)) :
    Except Unit (Except DriverError Unit) :=
  r.map Prod.fst

/-! ## Concrete fixtures used by witness theorems -/

/-- A decoded task configuration with the taskConfigSpec defaults. -/
def sampleTaskConfig : TaskConfig :=
  { modulePath := "/modules/sum.wasm"
    ioBuffer := { enabled := false, size := 4096, inputValue := ""
                  ioBufFuncName := "alloc", args := [] }
    main := { mainFuncName := "handle_buffer", args := [] } }

/-- A handle as StartTask builds it for sampleTaskConfig. -/
def sampleHandle : TaskHandle :=
  { id := "task-1"
    procState := .running
    startedAt := 0
    modulePath := "/modules/sum.wasm"
    ioBufferConf := sampleTaskConfig.ioBuffer
    mainFunc := sampleTaskConfig.main
    stopRequested := false }

/-- A plugin state with no tasks. -/
def emptyState : PluginState :=
  { config := defaultConfig, modulesCache := none, tasks := [], pending := [] }

/-- A plugin state with one running task registered under task-1. -/
def runningState : PluginState :=
  { config := defaultConfig
    modulesCache := none
    tasks := [("task-1", sampleHandle)]
    pending := [] }

/-- StartTask arguments for a fresh task-1 whose driver config decodes. -/
def sampleDriversCfg : DriversTaskConfig :=
  { id := "task-1", decoded := some sampleTaskConfig, setDriverStateOk := true }

/-- A walk entry for a plain file named p. -/
def wasmEntry (p : String) : WalkEntry :=
  { path := p, info := some { name := p, isDir := false }, err := none }

/-- Six .wasm files discovered by a walk. -/
def sixEntries : List WalkEntry :=
  [wasmEntry "a.wasm", wasmEntry "b.wasm", wasmEntry "c.wasm",
   wasmEntry "d.wasm", wasmEntry "e.wasm", wasmEntry "f.wasm"]

/-- The module paths of sixEntries. -/
def sixPaths : List String :=
  ["a.wasm", "b.wasm", "c.wasm", "d.wasm", "e.wasm", "f.wasm"]

/-- An engine for which every load, serialization and insertion succeeds. -/
def okOracle : EngineOracle :=
  { loadOk := fun _ => true
    serializeOk := fun _ => true
    cacheSetOk := fun _ => true }

/-- An engine for which loading b.wasm fails and everything else succeeds. -/
def failBOracle : EngineOracle :=
  { loadOk := fun p => !(p == "b.wasm")
    serializeOk := fun _ => true
    cacheSetOk := fun _ => true }

/-- A cache configuration with pre-cache enabled and capacity 5. -/
def precacheCacheConf : CacheConfig :=
  { enabled := true
    size := 5
    type := TYPE_LFU
    preCache := { enabled := true, modulesDir := "/modules" }
    expiration := { enabled := true, entryTTL := 600 } }

/-- The same pre-cache configuration with capacity 10. -/
def roomyCacheConf : CacheConfig :=
  { precacheCacheConf with size := 10 }

/-- A cache configuration naming a type gcache does not offer. -/
def fifoCacheConf : CacheConfig :=
  { precacheCacheConf with
    type := "fifo"
    preCache := { enabled := false, modulesDir := "" } }

/-- The default configuration with cache size zero. -/
def badSizeConfig : Config :=
  { cache := { defaultConfig.cache with size := 0 } }

/-- The default configuration with expiration disabled. -/
def noExpConfig : Config :=
  { cache := { defaultConfig.cache with
               expiration := { enabled := false, entryTTL := 600 } } }

/-- A plugin state holding the cache a previous successful SetConfig with
the default configuration built. -/
def cachedState : PluginState :=
  { emptyState with modulesCache := some (builtFor defaultConfig.cache) }

/-- A walk entry whose FileInfo is nil because stat failed. -/
def nilInfoEntry : WalkEntry :=
  { path := "/modules/bad", info := none, err := some "stat failed" }

/-- The outcome configureCache produces for precacheCacheConf over
sixEntries: capacity 5 exceeded by 6 discovered modules. -/
def capacityOutcome : ConfigureOutcome :=
  { result := .error (.cacheSizeExceeded 5 6)
    built := some (builtFor precacheCacheConf)
    processed := [] }

/-! ## Helper lemmas on the task map -/

theorem tasksGet_set_self (ts : TaskMap) (id : String) (h : TaskHandle) :
    tasksGet (tasksSet ts id h) id = some h := by
  simp [tasksGet, tasksSet, List.find?]

theorem filter_eq_after_filter_ne (ts : TaskMap) (id : String) :
    ((ts.filter fun p => !(p.1 == id)).filter fun p => p.1 == id) = [] := by
  induction ts with
  | nil => rfl
  | cons q ts ih =>
    by_cases hq : q.1 = id
    · simp [List.filter_cons, hq, ih]
    · simp [List.filter_cons, hq, ih]

theorem countId_set_self (ts : TaskMap) (id : String) (h : TaskHandle) :
    countId (tasksSet ts id h) id = 1 := by
  simp [countId, tasksSet, List.filter_cons, filter_eq_after_filter_ne]

theorem tasksGet_delete_self (ts : TaskMap) (id : String) :
    tasksGet (tasksDelete ts id) id = none := by
  induction ts with
  | nil => rfl
  | cons q ts ih =>
    by_cases hq : q.1 = id
    · simpa [tasksDelete, List.filter_cons, hq] using ih
    · simp only [tasksDelete, tasksGet, List.filter_cons, List.find?_cons, hq] at ih ⊢
      simp [hq, ih]

/-! ## Helper lemmas on the cache pipeline -/

theorem moduleStepErr_names_path (o : EngineOracle) (p : String) (e : DriverError) :
    moduleStepErr o p = some e → e.modulePath = some p := by
  intro h
  unfold moduleStepErr at h
  split at h
  · cases Option.some.inj h
    rfl
  · split at h
    · cases Option.some.inj h
      rfl
    · split at h
      · cases Option.some.inj h
        rfl
      · cases h

theorem precacheLoop_abort (o : EngineOracle) (pre : List String) (p : String)
    (post : List String) (e : DriverError)
    (hpre : ∀ q ∈ pre, moduleStepErr o q = none)
    (hp : moduleStepErr o p = some e) :
    precacheLoop o (pre ++ p :: post) = (.error e, pre ++ [p]) := by
  induction pre with
  | nil => simp [precacheLoop, hp]
  | cons q pre ih =>
    have hq : moduleStepErr o q = none := hpre q (by simp)
    have ih2 := ih fun r hr => hpre r (by simp [hr])
    simp [precacheLoop, hq, ih2]

theorem precacheLoop_no_walkFailed (o : EngineOracle) (ps : List String) (d : String) :
    (precacheLoop o ps).1 ≠ .error (.walkFailed d) := by
  induction ps with
  | nil => simp [precacheLoop]
  | cons p ps ih =>
    unfold precacheLoop
    cases hp : moduleStepErr o p with
    | some e =>
      have hpath := moduleStepErr_names_path o p e hp
      intro hcontra
      simp only [Except.error.injEq] at hcontra
      rw [hcontra] at hpath
      simp [DriverError.modulePath] at hpath
    | none =>
      simpa using ih

theorem walkVisitor_goError_none (e : WalkEntry) (g : String) (ap : Option String) :
    walkVisitor e ≠ .returns (some g) ap := by
  unfold walkVisitor
  cases e.info with
  | none => simp
  | some i =>
    cases hc : !i.isDir && hasSuffix i.name ".wasm" <;> simp [hc]

theorem runWalk_goError_none (es : List WalkEntry) (ge : Option String)
    (mods : List String) : runWalk es = .ok (ge, mods) → ge = none := by
  induction es generalizing ge mods with
  | nil =>
    intro h
    simp only [runWalk, Except.ok.injEq, Prod.mk.injEq] at h
    exact h.1.symm
  | cons e es ih =>
    intro h
    unfold runWalk at h
    cases hv : walkVisitor e with
    | nilPanic => rw [hv] at h; cases h
    | returns goErr ap =>
      cases goErr with
      | some g => exact absurd hv (walkVisitor_goError_none e g ap)
      | none =>
        rw [hv] at h
        cases hr : runWalk es with
        | error u => rw [hr] at h; cases h
        | ok r =>
          rw [hr] at h
          simp only [Except.map, Except.ok.injEq, Prod.mk.injEq] at h
          cases h.1
          exact ih r.1 r.2 (by rw [hr])

theorem configureCache_ttl_indep (config : Config) (t : Int)
    (fsEntries : List WalkEntry) (o : EngineOracle)
    (hdis : config.cache.expiration.enabled = false) :
    configureCache (withEntryTTL config t).cache fsEntries o =
      configureCache config.cache fsEntries o := by
  unfold configureCache builtFor withEntryTTL
  simp [hdis]

/-! ## Claim theorems -/

/-- C1: DestroyTask first looks the id up, returning the not-found error if
absent; a running task without force is rejected with an error and the
registry is unchanged; a running task with force gets stop() called on its
handle before removal; in every non-rejected case the id is removed from
the task registry. -/
theorem destroyTask_lifecycle (s : PluginState) (id : String) (force : Bool) :
    (tasksGet s.tasks id = none →
      destroyTask s id force =
        { res := .error .errTaskNotFound, state := s, events := [] }) ∧
    (∀ h, tasksGet s.tasks id = some h → h.isRunning = true → force = false →
      destroyTask s id force =
        { res := .error .cannotDestroyRunningTask, state := s, events := [] }) ∧
    (∀ h, tasksGet s.tasks id = some h → (h.isRunning = false ∨ force = true) →
      (destroyTask s id force).res = .ok () ∧
      tasksGet (destroyTask s id force).state.tasks id = none ∧
      (destroyTask s id force).events =
        (if h.isRunning && force then [Event.stopCalled id] else [])) := by
  refine ⟨?_, ?_, ?_⟩
  · intro hget
    simp [destroyTask, hget]
  · intro h hget hrun hforce
    subst hforce
    simp [destroyTask, hget, hrun]
  · intro h hget hcase
    cases hrun : h.isRunning <;> cases force <;>
      simp_all [destroyTask, hget, tasksGet_delete_self]

/-- C2: StartTask on a task id already present fails with the duplicate-task
error before creating any handle, leaving the registry unchanged (the one
pre-existing task for that id stays registered); on an id not present (with
the driver config decodable and the driver state settable) it registers
exactly one new task for the id. -/
theorem startTask_registry (s : PluginState) (now : Nat) (cfg : DriversTaskConfig) :
    (∀ h, tasksGet s.tasks cfg.id = some h →
      startTask s now cfg =
        { res := .error (.taskAlreadyStarted cfg.id), state := s, events := [] } ∧
      tasksGet (startTask s now cfg).state.tasks cfg.id = some h ∧
      countId (startTask s now cfg).state.tasks cfg.id = countId s.tasks cfg.id) ∧
    (∀ dc, tasksGet s.tasks cfg.id = none → cfg.decoded = some dc →
      cfg.setDriverStateOk = true →
      countId (startTask s now cfg).state.tasks cfg.id = 1 ∧
      ∃ h, (startTask s now cfg).res = .ok h ∧
        tasksGet (startTask s now cfg).state.tasks cfg.id = some h) := by
  constructor
  · intro h hget
    simp [startTask, hget]
  · intro dc hget hdec hsds
    simp only [startTask, hget, hdec, hsds, if_true]
    exact ⟨countId_set_self _ _ _, _, rfl, tasksGet_set_self _ _ _⟩

/-- C3: for a task id not present in the registry, each lookup-based
lifecycle operation (InspectTask, WaitTask, StopTask, DestroyTask,
TaskStats, SignalTask) returns the typed task-not-found error and leaves
the plugin state unchanged. -/
theorem lookup_miss_not_found (s : PluginState) (id : String) (force : Bool) :
    tasksGet s.tasks id = none →
    inspectTask s id = { res := .error .errTaskNotFound, state := s, events := [] } ∧
    waitTask s id = { res := .error .errTaskNotFound, state := s, events := [] } ∧
    stopTask s id = { res := .error .errTaskNotFound, state := s, events := [] } ∧
    destroyTask s id force = { res := .error .errTaskNotFound, state := s, events := [] } ∧
    taskStats s id = { res := .error .errTaskNotFound, state := s, events := [] } ∧
    signalTask s id = { res := .error .errTaskNotFound, state := s, events := [] } := by
  intro hget
  simp [inspectTask, waitTask, stopTask, destroyTask, taskStats, signalTask, hget]

/-- C4: when pre-caching is enabled and the walk discovers more .wasm
modules than the cache size, configureCache fails with the error carrying
both the cache size and the discovered module count, with no module
processing attempted; under the validations SetConfig runs first, SetConfig
returns the same error. -/
theorem precache_capacity_exceeded (cacheConf : CacheConfig)
    (fsEntries : List WalkEntry) (o : EngineOracle) (mods : List String) :
    validCacheType cacheConf.type = true →
    cacheConf.preCache.enabled = true →
    runWalk fsEntries = .ok (none, mods) →
    cacheConf.size < (mods.length : Int) →
    configureCache cacheConf fsEntries o =
      .ok { result := .error (.cacheSizeExceeded cacheConf.size mods.length)
            built := some (builtFor cacheConf)
            processed := [] } ∧
    (∀ s config, config.cache = cacheConf → cacheConf.enabled = true →
      0 < cacheConf.size →
      (cacheConf.expiration.enabled = true → 0 < cacheConf.expiration.entryTTL) →
      setConfig s (.ok config) fsEntries o =
        .ok (.error (.cacheSizeExceeded cacheConf.size mods.length),
             { s with config := config
                      modulesCache := some (builtFor cacheConf) })) := by
  intro hvt hpre hwalk hgt
  have hcc : configureCache cacheConf fsEntries o =
      .ok { result := .error (.cacheSizeExceeded cacheConf.size mods.length)
            built := some (builtFor cacheConf)
            processed := [] } := by
    unfold configureCache
    rw [hvt, hwalk]
    simp [hpre, hgt]
  refine ⟨hcc, ?_⟩
  intro s config hceq hen hsz httl
  have hsz2 : ¬cacheConf.size ≤ 0 := by omega
  have httl2 : (cacheConf.expiration.enabled &&
      decide (cacheConf.expiration.entryTTL ≤ 0)) = false := by
    cases hexp : cacheConf.expiration.enabled
    · rfl
    · have := httl hexp
      simp [hexp]
      omega
  simp only [setConfig, hceq, hsz2, if_false, httl2, Bool.false_eq_true, hen,
    if_true, hcc]

/-- C5: during pre-cache warm-up the first module whose load, serialization,
or cache insertion fails aborts the whole warm-up: configureCache returns
an error naming that module path, and no later module in the discovered
list is processed. -/
theorem precache_first_failure_aborts (cacheConf : CacheConfig)
    (fsEntries : List WalkEntry) (o : EngineOracle) (pre : List String)
    (p : String) (post : List String) (e : DriverError) :
    validCacheType cacheConf.type = true →
    cacheConf.preCache.enabled = true →
    runWalk fsEntries = .ok (none, pre ++ p :: post) →
    ¬cacheConf.size < ((pre ++ p :: post).length : Int) →
    (∀ q ∈ pre, moduleStepErr o q = none) →
    moduleStepErr o p = some e →
    configureCache cacheConf fsEntries o =
      .ok { result := .error e
            built := some (builtFor cacheConf)
            processed := pre ++ [p] } ∧
    e.modulePath = some p := by
  intro hvt hpre hwalk hle hok hfail
  have hloop := precacheLoop_abort o pre p post e hok hfail
  refine ⟨?_, moduleStepErr_names_path o p e hfail⟩
  unfold configureCache
  rw [hvt, hwalk]
  simp only [List.length_append, List.length_cons] at hle
  simp [hpre, hloop]
  omega

/-- C6: a cache type outside lfu, arc, lru, simple makes configureCache fail
with the error naming the specified type and no cache is built in its place
(no fallback type); under the validations SetConfig runs first, SetConfig
with the cache enabled returns the same error, and because the type-switch
default returns before the Build assignment, the previously stored modules
cache is left untouched. -/
theorem invalid_cache_type_fatal (cacheConf : CacheConfig)
    (fsEntries : List WalkEntry) (o : EngineOracle) :
    cacheConf.type ≠ TYPE_LFU → cacheConf.type ≠ TYPE_ARC →
    cacheConf.type ≠ TYPE_LRU → cacheConf.type ≠ TYPE_SIMPLE →
    configureCache cacheConf fsEntries o =
      .ok { result := .error (.unexpectedCacheType cacheConf.type)
            built := none
            processed := [] } ∧
    (∀ s config, config.cache = cacheConf → cacheConf.enabled = true →
      0 < cacheConf.size →
      (cacheConf.expiration.enabled = true → 0 < cacheConf.expiration.entryTTL) →
      setConfig s (.ok config) fsEntries o =
        .ok (.error (.unexpectedCacheType cacheConf.type),
             { s with config := config })) := by
  intro h1 h2 h3 h4
  have hvt : validCacheType cacheConf.type = false := by
    simp only [TYPE_LFU] at h1
    simp only [TYPE_ARC] at h2
    simp only [TYPE_LRU] at h3
    simp only [TYPE_SIMPLE] at h4
    simp [validCacheType, TYPE_LFU, TYPE_ARC, TYPE_LRU, TYPE_SIMPLE]
    exact ⟨⟨⟨h1, h2⟩, h3⟩, h4⟩
  have hcc : configureCache cacheConf fsEntries o =
      .ok { result := .error (.unexpectedCacheType cacheConf.type)
            built := none
            processed := [] } := by
    unfold configureCache
    rw [hvt]
    rfl
  refine ⟨hcc, ?_⟩
  intro s config hceq hen hsz httl
  have hsz2 : ¬cacheConf.size ≤ 0 := by omega
  have httl2 : (cacheConf.expiration.enabled &&
      decide (cacheConf.expiration.entryTTL ≤ 0)) = false := by
    cases hexp : cacheConf.expiration.enabled
    · rfl
    · have := httl hexp
      simp [hexp]
      omega
  simp only [setConfig, hceq, hsz2, if_false, httl2, Bool.false_eq_true, hen,
    if_true, hcc]

/-- C7: SetConfig rejects a non-positive cache size whether or not the cache
is enabled, rejects a non-positive entry TTL when expiration is enabled,
and when expiration is disabled the TTL value is not validated: the
returned result is the same for every TTL value. -/
theorem setConfig_size_ttl_validation (s : PluginState) (config : Config)
    (fsEntries : List WalkEntry) (o : EngineOracle) :
    (config.cache.size ≤ 0 →
      setConfig s (.ok config) fsEntries o =
        .ok (.error (.invalidCacheSize config.cache.size),
             { s with config := config })) ∧
    (0 < config.cache.size → config.cache.expiration.enabled = true →
      config.cache.expiration.entryTTL ≤ 0 →
      setConfig s (.ok config) fsEntries o =
        .ok (.error (.invalidEntryTTL config.cache.expiration.entryTTL),
             { s with config := config })) ∧
    (config.cache.expiration.enabled = false → ∀ t : Int,
      setConfigResult (setConfig s (.ok (withEntryTTL config t)) fsEntries o) =
      setConfigResult (setConfig s (.ok config) fsEntries o)) := by
  refine ⟨?_, ?_, ?_⟩
  · intro hsz
    simp [setConfig, hsz]
  · intro hsz hen htl
    have hsz2 : ¬config.cache.size ≤ 0 := by omega
    simp [setConfig, hsz2, hen, htl]
  · intro hdis t
    have hsize : (withEntryTTL config t).cache.size = config.cache.size := rfl
    have henb : (withEntryTTL config t).cache.expiration.enabled = false := hdis
    have hen2 : (withEntryTTL config t).cache.enabled = config.cache.enabled := rfl
    by_cases hsz : config.cache.size ≤ 0
    · simp [setConfig, setConfigResult, Except.map, hsize, hsz]
    · simp only [setConfig, setConfigResult, hsize, hsz, if_false, henb, hdis,
        Bool.false_and, Bool.false_eq_true, hen2]
      by_cases hen : config.cache.enabled
      · simp only [hen, if_true]
        rw [configureCache_ttl_indep config t fsEntries o hdis]
        cases hm : configureCache config.cache fsEntries o <;> rfl
      · simp [hen, Except.map]

/-- C9: SetConfig stores the decoded configuration in the plugin before
validating it, so whenever it returns a post-decode error the stored
configuration is the rejected one. -/
theorem setConfig_stores_rejected (s : PluginState) (config : Config)
    (fsEntries : List WalkEntry) (o : EngineOracle)
    (r : Except DriverError Unit × PluginState) (e : DriverError) :
    setConfig s (.ok config) fsEntries o = .ok r → r.1 = .error e →
    r.2.config = config := by
  intro hset herr
  simp only [setConfig] at hset
  split at hset
  · cases Except.ok.inj hset
    rfl
  · split at hset
    · cases Except.ok.inj hset
      rfl
    · split at hset
      · split at hset
        · cases hset
        · cases Except.ok.inj hset
          rfl
      · cases Except.ok.inj hset
        simp at herr

/-- C10: the walk visitor ignores its error argument, returns a nil Go error
for every entry with a non-nil FileInfo (so the aggregated walk diagnostic
is never produced via a visitor error: no configureCache outcome carries
it), and dereferences a nil FileInfo — a panic — instead of returning an
error. -/
theorem walk_visitor_behavior (e0 : WalkEntry) (cacheConf : CacheConfig)
    (fsEntries : List WalkEntry) (o : EngineOracle) :
    (∀ ea : Option String, walkVisitor { e0 with err := ea } = walkVisitor e0) ∧
    (∀ i, e0.info = some i → walkVisitor e0 =
      .returns none
        (if !i.isDir && hasSuffix i.name ".wasm" then some e0.path
         else none)) ∧
    (e0.info = none → walkVisitor e0 = .nilPanic) ∧
    (∀ out, configureCache cacheConf fsEntries o = .ok out →
      ∀ d, out.result ≠ .error (.walkFailed d)) := by
  refine ⟨?_, ?_, ?_, ?_⟩
  · intro ea
    rfl
  · intro i hi
    simp only [walkVisitor, hi]
    split <;> rfl
  · intro hi
    simp [walkVisitor, hi]
  · intro out hcc d
    cases hvt : validCacheType cacheConf.type with
    | false =>
      have hr : configureCache cacheConf fsEntries o =
          .ok { result := .error (.unexpectedCacheType cacheConf.type)
                built := none
                processed := [] } := by
        unfold configureCache
        rw [hvt]
        rfl
      rw [hr] at hcc
      cases Except.ok.inj hcc
      simp
    | true =>
      cases hen : cacheConf.preCache.enabled with
      | false =>
        have hr : configureCache cacheConf fsEntries o =
            .ok { result := .ok ()
                  built := some (builtFor cacheConf)
                  processed := [] } := by
          unfold configureCache
          rw [hvt, hen]
          rfl
        rw [hr] at hcc
        cases Except.ok.inj hcc
        simp
      | true =>
        cases hw : runWalk fsEntries with
        | error u =>
          cases u
          have hr : configureCache cacheConf fsEntries o = .error () := by
            unfold configureCache
            rw [hvt, hen, hw]
            rfl
          rw [hr] at hcc
          cases hcc
        | ok r =>
          obtain ⟨ge, mods⟩ := r
          have hge : ge = none := runWalk_goError_none fsEntries ge mods hw
          subst hge
          by_cases hlen : (mods.length : Int) > cacheConf.size
          · have hr : configureCache cacheConf fsEntries o =
                .ok { result := .error (.cacheSizeExceeded cacheConf.size mods.length)
                      built := some (builtFor cacheConf)
                      processed := [] } := by
              unfold configureCache
              rw [hvt, hen, hw]
              simp [hlen]
            rw [hr] at hcc
            cases Except.ok.inj hcc
            simp
          · have hr : configureCache cacheConf fsEntries o =
                .ok { result := (precacheLoop o mods).1
                      built := some (builtFor cacheConf)
                      processed := (precacheLoop o mods).2 } := by
              unfold configureCache
              rw [hvt, hen, hw]
              simp [hlen]
            rw [hr] at hcc
            cases Except.ok.inj hcc
            simpa using precacheLoop_no_walkFailed o mods d

/-- C8 counterexample: immediately after StartTask on a fresh id, the
registered handle is already in the Running state although its run
goroutine is still pending, i.e. the engine call has not begun — the claim
that the observable state is never Running before the execution goroutine
starts the engine call is false, and no Starting state is ever observable. -/
theorem startTask_running_before_goroutine :
    (tasksGet (startTask emptyState 0 sampleDriversCfg).state.tasks
        "task-1").map TaskHandle.procState = some .running ∧
    (startTask emptyState 0 sampleDriversCfg).state.pending = ["task-1"] := by
  constructor <;> rfl

/-- C8 amended: StartTask registers the handle directly in the Running state
before the run goroutine has begun the engine call (there is no observable
Starting state); executing the pending goroutine performs the Running to
Exited transition, after which the goroutine is no longer pending and a
repeated completion is a no-op — the transition fires exactly once. -/
theorem startTask_state_machine (s : PluginState) (now : Nat)
    (cfg : DriversTaskConfig) (dc : TaskConfig) :
    tasksGet s.tasks cfg.id = none → cfg.decoded = some dc →
    cfg.setDriverStateOk = true → cfg.id ∉ s.pending →
    ((tasksGet (startTask s now cfg).state.tasks cfg.id).map
        TaskHandle.procState = some .running ∧
      cfg.id ∈ (startTask s now cfg).state.pending) ∧
    ((tasksGet (runStep (startTask s now cfg).state cfg.id).tasks cfg.id).map
        TaskHandle.procState = some .exited ∧
      cfg.id ∉ (runStep (startTask s now cfg).state cfg.id).pending ∧
      runStep (runStep (startTask s now cfg).state cfg.id) cfg.id =
        runStep (startTask s now cfg).state cfg.id) := by
  intro hget hdec hsds hpend
  simp only [startTask, hget, hdec, hsds, if_true]
  have hnotcontains : s.pending.contains cfg.id = false := by
    simpa using hpend
  have hrun : runStep
      { s with tasks := tasksSet s.tasks cfg.id
                 { id := cfg.id, procState := .running, startedAt := now
                   modulePath := dc.modulePath, ioBufferConf := dc.ioBuffer
                   mainFunc := dc.main, stopRequested := false }
               pending := cfg.id :: s.pending } cfg.id =
      { s with tasks := tasksSet (tasksSet s.tasks cfg.id
                 { id := cfg.id, procState := .running, startedAt := now
                   modulePath := dc.modulePath, ioBufferConf := dc.ioBuffer
                   mainFunc := dc.main, stopRequested := false }) cfg.id
                 { id := cfg.id, procState := .exited, startedAt := now
                   modulePath := dc.modulePath, ioBufferConf := dc.ioBuffer
                   mainFunc := dc.main, stopRequested := false }
               pending := s.pending } := by
    unfold runStep
    simp only [List.contains_cons, beq_self_eq_true, Bool.true_or, if_true,
      List.erase_cons_head, tasksGet_set_self]
  refine ⟨⟨?_, ?_⟩, ?_⟩
  · rw [tasksGet_set_self]
    rfl
  · simp
  · rw [hrun]
    refine ⟨?_, hpend, ?_⟩
    · rw [tasksGet_set_self]
      rfl
    · unfold runStep
      simp only [hnotcontains]
      rfl

/-! ## Witness theorems: the claim theorems applied at concrete inputs -/

/-- Witness for destroyTask_lifecycle at a running task destroyed with
force: success, removal, and a stop event. -/
theorem destroyTask_lifecycle_witness :
    (destroyTask runningState "task-1" true).res = .ok () ∧
    tasksGet (destroyTask runningState "task-1" true).state.tasks "task-1" = none ∧
    (destroyTask runningState "task-1" true).events = [Event.stopCalled "task-1"] := by
  have h := (destroyTask_lifecycle runningState "task-1" true).2.2 sampleHandle
    rfl (Or.inr rfl)
  refine ⟨h.1, h.2.1, ?_⟩
  rw [h.2.2]
  rfl

/-- Witness for startTask_registry at a fresh id: exactly one registered
task afterwards. -/
theorem startTask_registry_witness :
    countId (startTask emptyState 0 sampleDriversCfg).state.tasks "task-1" = 1 ∧
    ∃ h, (startTask emptyState 0 sampleDriversCfg).res = .ok h ∧
      tasksGet (startTask emptyState 0 sampleDriversCfg).state.tasks "task-1" = some h :=
  (startTask_registry emptyState 0 sampleDriversCfg).2 sampleTaskConfig rfl rfl rfl

/-- Witness for lookup_miss_not_found at an unknown id on the empty state. -/
theorem lookup_miss_not_found_witness :
    inspectTask emptyState "ghost" =
      { res := .error .errTaskNotFound, state := emptyState, events := [] } ∧
    waitTask emptyState "ghost" =
      { res := .error .errTaskNotFound, state := emptyState, events := [] } ∧
    stopTask emptyState "ghost" =
      { res := .error .errTaskNotFound, state := emptyState, events := [] } ∧
    destroyTask emptyState "ghost" false =
      { res := .error .errTaskNotFound, state := emptyState, events := [] } ∧
    taskStats emptyState "ghost" =
      { res := .error .errTaskNotFound, state := emptyState, events := [] } ∧
    signalTask emptyState "ghost" =
      { res := .error .errTaskNotFound, state := emptyState, events := [] } :=
  lookup_miss_not_found emptyState "ghost" false rfl

/-- Witness for precache_capacity_exceeded: six discovered modules against
capacity five. -/
theorem precache_capacity_exceeded_witness :
    configureCache precacheCacheConf sixEntries okOracle =
      .ok { result := .error (.cacheSizeExceeded 5 6)
            built := some (builtFor precacheCacheConf)
            processed := [] } ∧
    setConfig emptyState (.ok { cache := precacheCacheConf }) sixEntries okOracle =
      .ok (.error (.cacheSizeExceeded 5 6),
           { emptyState with config := { cache := precacheCacheConf }
                             modulesCache := some (builtFor precacheCacheConf) }) := by
  have h := precache_capacity_exceeded precacheCacheConf sixEntries okOracle
    sixPaths rfl rfl rfl (by decide)
  exact ⟨h.1, h.2 emptyState { cache := precacheCacheConf } rfl rfl (by decide)
    (by decide)⟩

/-- Witness for precache_first_failure_aborts: of six modules the second
fails to load; only the first two are processed. -/
theorem precache_first_failure_aborts_witness :
    configureCache roomyCacheConf sixEntries failBOracle =
      .ok { result := .error (.moduleLoadFailed "b.wasm")
            built := some (builtFor roomyCacheConf)
            processed := ["a.wasm", "b.wasm"] } ∧
    DriverError.modulePath (.moduleLoadFailed "b.wasm") = some "b.wasm" := by
  have h := precache_first_failure_aborts roomyCacheConf sixEntries failBOracle
    ["a.wasm"] "b.wasm" ["c.wasm", "d.wasm", "e.wasm", "f.wasm"]
    (.moduleLoadFailed "b.wasm") rfl rfl rfl (by decide) (by decide) rfl
  exact h

/-- Witness for invalid_cache_type_fatal at the unsupported type fifo, on a
state that already holds a built cache: the error names fifo and the
previously stored cache survives the rejected call. -/
theorem invalid_cache_type_fatal_witness :
    configureCache fifoCacheConf [] okOracle =
      .ok { result := .error (.unexpectedCacheType "fifo")
            built := none
            processed := [] } ∧
    setConfig cachedState (.ok { cache := fifoCacheConf }) [] okOracle =
      .ok (.error (.unexpectedCacheType "fifo"),
           { cachedState with config := { cache := fifoCacheConf } }) ∧
    (setConfig cachedState (.ok { cache := fifoCacheConf }) [] okOracle).map
        (fun r => r.2.modulesCache) =
      .ok (some (builtFor defaultConfig.cache)) := by
  have h := invalid_cache_type_fatal fifoCacheConf [] okOracle
    (by decide) (by decide) (by decide) (by decide)
  have h2 := h.2 cachedState { cache := fifoCacheConf } rfl rfl (by decide)
    (by decide)
  refine ⟨h.1, h2, ?_⟩
  rw [h2]
  rfl

/-- Witness for setConfig_size_ttl_validation: size zero is rejected, and
with expiration disabled the result does not depend on the TTL. -/
theorem setConfig_size_ttl_validation_witness :
    setConfig emptyState (.ok badSizeConfig) [] okOracle =
      .ok (.error (.invalidCacheSize 0), { emptyState with config := badSizeConfig }) ∧
    setConfigResult (setConfig emptyState (.ok (withEntryTTL noExpConfig (-5))) [] okOracle) =
      setConfigResult (setConfig emptyState (.ok noExpConfig) [] okOracle) :=
  ⟨(setConfig_size_ttl_validation emptyState badSizeConfig [] okOracle).1 (by decide),
   (setConfig_size_ttl_validation emptyState noExpConfig [] okOracle).2.2 rfl (-5)⟩

/-- Witness for setConfig_stores_rejected: after rejecting the size-zero
configuration the stored configuration is the rejected one. -/
theorem setConfig_stores_rejected_witness :
    ((Except.error (DriverError.invalidCacheSize 0) : Except DriverError Unit),
      { emptyState with config := badSizeConfig }).2.config = badSizeConfig :=
  setConfig_stores_rejected emptyState badSizeConfig [] okOracle
    (.error (.invalidCacheSize 0), { emptyState with config := badSizeConfig })
    (.invalidCacheSize 0) rfl rfl

/-- Witness for walk_visitor_behavior: the visitor ignores the error
argument, panics on a nil FileInfo, and a concrete configureCache outcome
never carries the aggregated walk diagnostic. -/
theorem walk_visitor_behavior_witness :
    walkVisitor { nilInfoEntry with err := none } = walkVisitor nilInfoEntry ∧
    walkVisitor nilInfoEntry = .nilPanic ∧
    capacityOutcome.result ≠ .error (.walkFailed "/modules") := by
  have h := walk_visitor_behavior nilInfoEntry precacheCacheConf sixEntries okOracle
  exact ⟨h.1 none, h.2.2.1 rfl, h.2.2.2 capacityOutcome rfl "/modules"⟩

/-- Witness for startTask_state_machine at a fresh start on the empty
state. -/
theorem startTask_state_machine_witness :
    ((tasksGet (startTask emptyState 0 sampleDriversCfg).state.tasks "task-1").map
        TaskHandle.procState = some .running ∧
      "task-1" ∈ (startTask emptyState 0 sampleDriversCfg).state.pending) ∧
    ((tasksGet (runStep (startTask emptyState 0 sampleDriversCfg).state
          "task-1").tasks "task-1").map TaskHandle.procState = some .exited ∧
      "task-1" ∉ (runStep (startTask emptyState 0 sampleDriversCfg).state
          "task-1").pending ∧
      runStep (runStep (startTask emptyState 0 sampleDriversCfg).state
          "task-1") "task-1" =
        runStep (startTask emptyState 0 sampleDriversCfg).state "task-1") :=
  startTask_state_machine emptyState 0 sampleDriversCfg sampleTaskConfig
    rfl rfl rfl (by simp [emptyState])

end NomadWasmtime
